import Mathlib

/-!
Shallow embedding of the conditional form engine of `shopify-form`:
`src/lib/genericConditionalValidator.ts` (generic rule evaluation, visibility,
requiredness, validation pass) and `src/lib/transitoConditionalValidator.ts`
(the transito-specific variant with its hard-coded rule set).

JavaScript runtime behaviour relevant here is made explicit:
snapshot values are strings or arrays of strings; a missing key is `undefined`;
`undefined` and the empty string are falsy while every array (even the empty
one) is truthy; `String(arr)` joins the elements with commas; JS `Record`
assignment replaces the value of an existing key in place and appends a fresh
key at the end.
-/

namespace ShopifyForm

/-- A snapshot value: a JS string or a JS array of strings (multi-choice). -/
inductive Value where
  | str (s : String)
  | seq (xs : List String)
deriving DecidableEq, Repr

/-- A form-data snapshot: field id to value; `none` models a missing key. -/
def Snapshot : Type := String → Option Value

/-- JS falsiness of a possibly-missing snapshot value: `undefined` and `""`
are falsy; arrays are always truthy, including the empty array. -/
def jsFalsy : Option Value → Bool
  | none => true
  | some (Value.str s) => s == ""
  | some (Value.seq _) => false

/-- `String(v || '')` as evaluated by the condition evaluator: a falsy value
gives `""`; an array is joined with commas. -/
def coerceToString : Option Value → String
  | none => ""
  | some (Value.str s) => s
  | some (Value.seq xs) => String.intercalate "," xs

/-- JS `a.includes(b)`: `b` occurs as a contiguous substring of `a`. -/
def strIncludes (a b : String) : Bool :=
  decide (b.data <:+: a.data)

/-- JS `s.toLowerCase()`, modelled character-wise over the string's data. -/
def strToLower (s : String) : String :=
  String.mk (s.data.map Char.toLower)

/-- JS `s.trim()`: drop whitespace from both ends, modelled over the data. -/
def strTrim (s : String) : String :=
  String.mk (((s.data.dropWhile Char.isWhitespace).reverse.dropWhile
    Char.isWhitespace).reverse)

/-- The trigger of a rule (`when`): a single string or a list of candidates. -/
inductive Trigger where
  | one (s : String)
  | many (ws : List String)
deriving DecidableEq, Repr

/-- Rule kind: `'show'` controls visibility, `'require'` requiredness. -/
inductive RuleType where
  | «show»
  | require
deriving DecidableEq, Repr

/-- The three string-matching modes of the evaluator. -/
inductive MatchMode where
  | exact
  | contains
  | containsAll
deriving DecidableEq, Repr

/-- `GenericConditionalRule` of `genericConditionalValidator.ts`; `matchMode`
is optional there (`none` models an omitted mode). -/
structure GenericConditionalRule where
  dependsOn : String
  «when» : Trigger
  type : RuleType
  matchMode : Option MatchMode
deriving DecidableEq, Repr

/-- `GenericFormField`: static descriptor of one field; `required` and
`typeComponent` are optional in the source. -/
structure GenericFormField where
  id : String
  label : String
  required : Option Bool
  typeComponent : Option String
deriving DecidableEq, Repr

/-- `GenericFormConfiguration`: a JS object keyed by field name; modelled as
an association list so that `Object.keys` iteration order is kept. -/
structure GenericFormConfiguration where
  entries : List (String × GenericFormField)
deriving DecidableEq, Repr

/-- `formConfiguration[fieldName]`: first entry with the given key. -/
def GenericFormConfiguration.lookup (cfg : GenericFormConfiguration)
    (name : String) : Option GenericFormField :=
  (cfg.entries.find? (fun e => e.1 == name)).map (fun e => e.2)

/-- `Object.keys(formConfiguration)`, in declaration order. -/
def GenericFormConfiguration.keys (cfg : GenericFormConfiguration) : List String :=
  cfg.entries.map (fun e => e.1)

/-- A rule-map entry: a single rule or an array of rules. -/
inductive RuleEntry where
  | single (r : GenericConditionalRule)
  | multiple (rs : List GenericConditionalRule)
deriving DecidableEq, Repr

/-- `Array.isArray(rules) ? rules : [rules]`. -/
def RuleEntry.toRuleArray : RuleEntry → List GenericConditionalRule
  | RuleEntry.single r => [r]
  | RuleEntry.multiple rs => rs

/-- `GenericConditionalFields`: field name to its rule entry (if any). -/
def GenericConditionalFields : Type := String → Option RuleEntry

/-- `evaluateGenericCondition(rule, formData)`. -/
def evaluateGenericCondition (rule : GenericConditionalRule)
    (formData : Snapshot) : Bool :=
  let fieldValue := coerceToString (formData rule.dependsOn)
  let matchMode := rule.matchMode.getD MatchMode.exact
  match matchMode with
  | MatchMode.containsAll =>
    match rule.when with
    | Trigger.many ws =>
      let lowerFieldValue := strToLower fieldValue
      ws.all (fun word => strIncludes lowerFieldValue (strToLower word))
    | Trigger.one w => strIncludes (strToLower fieldValue) (strToLower w)
  | MatchMode.contains =>
    match rule.when with
    | Trigger.many ws =>
      let lowerFieldValue := strToLower fieldValue
      ws.any (fun word => strIncludes lowerFieldValue (strToLower word))
    | Trigger.one w => strIncludes (strToLower fieldValue) (strToLower w)
  | MatchMode.exact =>
    let whenValues := match rule.when with
      | Trigger.many ws => ws
      | Trigger.one w => [w]
    whenValues.contains fieldValue

/-- `shouldShowGenericField(fieldName, formData, conditionalFields)`. -/
def shouldShowGenericField (fieldName : String) (formData : Snapshot)
    (conditionalFields : GenericConditionalFields) : Bool :=
  match conditionalFields fieldName with
  | none => true
  | some rules =>
    let ruleArray := rules.toRuleArray
    let showRules := ruleArray.filter (fun r => r.type == RuleType.«show»)
    if showRules.isEmpty then true
    else showRules.all (fun r => evaluateGenericCondition r formData)

/-- `isGenericFieldRequired(fieldName, formData, conditionalFields, formConfiguration)`. -/
def isGenericFieldRequired (fieldName : String) (formData : Snapshot)
    (conditionalFields : GenericConditionalFields)
    (formConfiguration : GenericFormConfiguration) : Bool :=
  let fieldConfig := formConfiguration.lookup fieldName
  let isBaseRequired := (fieldConfig.map (fun fc => fc.required == some true)).getD false
  match conditionalFields fieldName with
  | none => isBaseRequired
  | some rules =>
    let ruleArray := rules.toRuleArray
    let requireRules := ruleArray.filter (fun r => r.type == RuleType.require)
    if requireRules.isEmpty then isBaseRequired
    else isBaseRequired || requireRules.any (fun r => evaluateGenericCondition r formData)

/-- JS `Record` assignment `m[k] = v`: replace the value of an existing key in
place, otherwise append the new binding at the end. -/
def recordSet : List (String × String) → String → String → List (String × String)
  | [], k, v => [(k, v)]
  | p :: rest, k, v => if p.1 == k then (k, v) :: rest else p :: recordSet rest k v

/-- JS `Record` read `m[k]`: value of the first (hence only) binding of `k`. -/
def lookupRecord (m : List (String × String)) (k : String) : Option String :=
  (m.find? (fun p => p.1 == k)).map (fun p => p.2)

/-- `GenericValidationResult` of the source. -/
structure GenericValidationResult where
  isValid : Bool
  errors : List (String × String)
  validatedFields : List String
  skippedFields : List String
deriving DecidableEq, Repr

/-- Mutable accumulator of a validation pass: the three growing collections. -/
structure GenAcc where
  errors : List (String × String)
  validatedFields : List String
  skippedFields : List String
deriving DecidableEq, Repr

/-- The value check of the validation loop:
`!fieldValue || (typeof fieldValue === 'string' && fieldValue.trim() === '')`. -/
def valueFailsCheck (v : Option Value) : Bool :=
  jsFalsy v ||
    (match v with
     | some (Value.str s) => strTrim s == ""
     | _ => false)

/-- `fieldConfig.label` (the field is always present when looked up by a key
of the configuration; `""` totalises the impossible case). -/
def labelText : Option GenericFormField → String
  | some fc => fc.label
  | none => ""

/-- One iteration of the `forEach` loop of
`validateGenericFieldsBasedOnRenderingAndRequirement`. -/
def genStep (formData : Snapshot) (formConfiguration : GenericFormConfiguration)
    (conditionalFields : GenericConditionalFields)
    (acc : GenAcc) (fieldName : String) : GenAcc :=
  let fieldConfig := formConfiguration.lookup fieldName
  let fieldValue := formData fieldName
  let isFieldRendered := shouldShowGenericField fieldName formData conditionalFields
  let isFieldRequired :=
    isGenericFieldRequired fieldName formData conditionalFields formConfiguration
  if isFieldRequired && isFieldRendered then
    if valueFailsCheck fieldValue then
      { acc with errors :=
          recordSet acc.errors fieldName (labelText fieldConfig ++ " es requerido.") }
    else
      { acc with validatedFields := acc.validatedFields ++ [fieldName] }
  else if !isFieldRendered then
    { acc with skippedFields := acc.skippedFields ++ [fieldName] }
  else
    { acc with validatedFields := acc.validatedFields ++ [fieldName] }

/-- `validateGenericFieldsBasedOnRenderingAndRequirement(formData, formConfiguration, conditionalFields)`. -/
def validateGenericFieldsBasedOnRenderingAndRequirement (formData : Snapshot)
    (formConfiguration : GenericFormConfiguration)
    (conditionalFields : GenericConditionalFields) : GenericValidationResult :=
  let acc := formConfiguration.keys.foldl
    (genStep formData formConfiguration conditionalFields) ⟨[], [], []⟩
  { isValid := acc.errors.isEmpty
    errors := acc.errors
    validatedFields := acc.validatedFields
    skippedFields := acc.skippedFields }

/-- `TransitoDataType` of `useFormManager.ts`: every field is a string. -/
structure TransitoDataType where
  userName : String
  typeId : String
  idNumber : String
  notificationAddress : String
  notificationCity : String
  notificationEmail : String
  phoneNumber : String
  procedureType : String
  actNumber : String
  actDate : String
  infractionCode : String
  infractionDescription : String
  vehicleBrand : String
  vehicleModel : String
  vehiclePlates : String
  isOwner : String
  mobilitySecretaryName : String
  petitionDate : String
  virtualAudienceReason : String
deriving DecidableEq, Repr

/-- `Object.keys(formData)` for a `TransitoDataType`, in declaration order. -/
def transitoKeys : List String :=
  ["userName", "typeId", "idNumber", "notificationAddress", "notificationCity",
   "notificationEmail", "phoneNumber", "procedureType", "actNumber", "actDate",
   "infractionCode", "infractionDescription", "vehicleBrand", "vehicleModel",
   "vehiclePlates", "isOwner", "mobilitySecretaryName", "petitionDate",
   "virtualAudienceReason"]

/-- Dynamic read `formData[fieldName]` on a `TransitoDataType`. -/
def transitoGet (d : TransitoDataType) : String → Option String
  | "userName" => some d.userName
  | "typeId" => some d.typeId
  | "idNumber" => some d.idNumber
  | "notificationAddress" => some d.notificationAddress
  | "notificationCity" => some d.notificationCity
  | "notificationEmail" => some d.notificationEmail
  | "phoneNumber" => some d.phoneNumber
  | "procedureType" => some d.procedureType
  | "actNumber" => some d.actNumber
  | "actDate" => some d.actDate
  | "infractionCode" => some d.infractionCode
  | "infractionDescription" => some d.infractionDescription
  | "vehicleBrand" => some d.vehicleBrand
  | "vehicleModel" => some d.vehicleModel
  | "vehiclePlates" => some d.vehiclePlates
  | "isOwner" => some d.isOwner
  | "mobilitySecretaryName" => some d.mobilitySecretaryName
  | "petitionDate" => some d.petitionDate
  | "virtualAudienceReason" => some d.virtualAudienceReason
  | _ => none

/-- `ConditionalRule` of `transitoConditionalValidator.ts` (no `matchMode`). -/
structure ConditionalRule where
  dependsOn : String
  «when» : Trigger
  type : RuleType
deriving DecidableEq, Repr

/-- The single hard-coded entry of `transitoConditionalFields`. -/
def virtualAudienceReasonRule : ConditionalRule :=
  { dependsOn := "procedureType"
    «when» := Trigger.one "audiencia-virtual"
    type := RuleType.«show» }

/-- `transitoConditionalFields[fieldName]`: only `virtualAudienceReason` has a
rule. -/
def transitoConditionalFields (fieldName : String) : Option ConditionalRule :=
  if fieldName == "virtualAudienceReason" then some virtualAudienceReasonRule
  else none

/-- `Object.keys(transitoConditionalFields)`. -/
def transitoConditionalKeys : List String := ["virtualAudienceReason"]

/-- `evaluateCondition(rule, formData)`: exact (array-membership) matching. -/
def evaluateCondition (rule : ConditionalRule) (formData : TransitoDataType) : Bool :=
  let fieldValue := (transitoGet formData rule.dependsOn).getD ""
  match rule.when with
  | Trigger.many ws => ws.contains fieldValue
  | Trigger.one w => fieldValue == w

/-- `shouldShowField(fieldName, formData)`. -/
def shouldShowField (fieldName : String) (formData : TransitoDataType) : Bool :=
  match transitoConditionalFields fieldName with
  | none => true
  | some rule => evaluateCondition rule formData

/-- `isFieldRequired(fieldName, formData)`: a `show` rule also makes the field
required exactly when it is shown. -/
def isFieldRequired (fieldName : String) (formData : TransitoDataType) : Bool :=
  match transitoConditionalFields fieldName with
  | none => false
  | some rule =>
    if rule.type == RuleType.«show» then evaluateCondition rule formData
    else false

/-- The inline `alwaysRequiredFields` list of
`getRequiredFieldsForCurrentState`. -/
def alwaysRequiredFieldsList : List String :=
  ["userName", "typeId", "idNumber", "notificationAddress", "notificationCity",
   "notificationEmail", "phoneNumber", "procedureType", "actNumber", "actDate",
   "vehicleBrand", "vehicleModel", "vehiclePlates", "isOwner",
   "mobilitySecretaryName", "petitionDate"]

/-- `getRequiredFieldsForCurrentState(formData)`. -/
def getRequiredFieldsForCurrentState (formData : TransitoDataType) : List String :=
  alwaysRequiredFieldsList ++
    transitoConditionalKeys.filter (fun fieldName => shouldShowField fieldName formData)

/-- `validateConditionalFields(formData)`: `(isValid, errors)`. -/
def validateConditionalFields (formData : TransitoDataType) :
    Bool × List (String × String) :=
  let errors : List (String × String) :=
    if isFieldRequired "virtualAudienceReason" formData then
      if formData.virtualAudienceReason == "" ||
          strTrim formData.virtualAudienceReason == "" then
        [("virtualAudienceReason",
          "La razón para no asistir presencialmente es requerida para solicitudes de audiencia virtual.")]
      else if formData.virtualAudienceReason.length < 10 then
        [("virtualAudienceReason", "La razón debe tener al menos 10 caracteres.")]
      else []
    else []
  (errors.isEmpty, errors)

/-- `shouldShowFieldByName(fieldName, formData)`. -/
def shouldShowFieldByName (fieldName : String) (formData : TransitoDataType) : Bool :=
  if transitoConditionalKeys.contains fieldName then shouldShowField fieldName formData
  else true

/-- Per-field config passed to the transito validator:
`{ required?: boolean; label: string }`. -/
structure TransitoFieldConfig where
  required : Option Bool
  label : String
deriving DecidableEq, Repr

/-- The string-value check of the transito loop:
`!fieldValue || (typeof fieldValue === 'string' && fieldValue.trim() === '')`. -/
def strFailsCheck : Option String → Bool
  | none => true
  | some s => s == "" || strTrim s == ""

/-- One iteration of the `forEach` loop of
`validateFieldsBasedOnRenderingAndRequirement`. -/
def transitoStep (formData : TransitoDataType)
    (fieldConfigs : List (String × TransitoFieldConfig))
    (acc : GenAcc) (fieldName : String) : GenAcc :=
  let fieldValue := transitoGet formData fieldName
  let fieldConfig := (fieldConfigs.find? (fun p => p.1 == fieldName)).map (fun p => p.2)
  let isReq := (getRequiredFieldsForCurrentState formData).contains fieldName
  let isRendered := shouldShowFieldByName fieldName formData
  match fieldConfig with
  | none => { acc with skippedFields := acc.skippedFields ++ [fieldName] }
  | some fc =>
    if isReq && isRendered then
      if strFailsCheck fieldValue then
        { acc with errors := recordSet acc.errors fieldName (fc.label ++ " es requerido.") }
      else { acc with validatedFields := acc.validatedFields ++ [fieldName] }
    else if !isRendered then
      { acc with skippedFields := acc.skippedFields ++ [fieldName] }
    else
      { acc with validatedFields := acc.validatedFields ++ [fieldName] }

/-- The main `forEach` loop of `validateFieldsBasedOnRenderingAndRequirement`
(before the conditional-validation override phase). -/
def transitoMainAcc (formData : TransitoDataType)
    (fieldConfigs : List (String × TransitoFieldConfig)) : GenAcc :=
  transitoKeys.foldl (transitoStep formData fieldConfigs) ⟨[], [], []⟩

/-- `validateFieldsBasedOnRenderingAndRequirement(formData, fieldConfigs)`:
main loop, then the conditional errors overwrite (for shown fields). -/
def validateFieldsBasedOnRenderingAndRequirement (formData : TransitoDataType)
    (fieldConfigs : List (String × TransitoFieldConfig)) : GenericValidationResult :=
  let acc := transitoMainAcc formData fieldConfigs
  let conditionalValidation := validateConditionalFields formData
  let errors := conditionalValidation.2.foldl
    (fun e p => if shouldShowFieldByName p.1 formData then recordSet e p.1 p.2 else e)
    acc.errors
  { isValid := errors.isEmpty
    errors := errors
    validatedFields := acc.validatedFields
    skippedFields := acc.skippedFields }

/-- All field ids mentioned by an accumulator, in bucket order. -/
def GenAcc.allKeys (acc : GenAcc) : List String :=
  acc.errors.map Prod.fst ++ acc.validatedFields ++ acc.skippedFields

/-- The rule list attached to a field: none, one, or many (normalised). -/
def rulesOf (conditionalFields : GenericConditionalFields) (fieldName : String) :
    List GenericConditionalRule :=
  match conditionalFields fieldName with
  | none => []
  | some e => e.toRuleArray

/-- The base requiredness flag of a field: `fieldConfig?.required === true`. -/
def baseRequiredFlag (cfg : GenericFormConfiguration) (fieldName : String) : Bool :=
  ((cfg.lookup fieldName).map (fun fc => fc.required == some true)).getD false

/-! ### Concrete instances used in counterexamples and witnesses -/

/-- An empty rule map. -/
def exNoRules : GenericConditionalFields := fun _ => none

/-- A configuration with one required multi-choice field. -/
def exCfgSeq : GenericFormConfiguration :=
  ⟨[("choices",
     { id := "choices", label := "Choices", required := some true, typeComponent := none })]⟩

/-- A snapshot where the multi-choice field holds the empty sequence. -/
def exFdSeqEmpty : Snapshot :=
  fun f => if f == "choices" then some (Value.seq []) else none

/-- A configuration with one optional (non-required) field. -/
def exCfgOpt : GenericFormConfiguration :=
  ⟨[("note", { id := "note", label := "Note", required := none, typeComponent := none })]⟩

/-- The everywhere-missing snapshot. -/
def exFdNone : Snapshot := fun _ => none

/-- A snapshot whose field `x` holds the string `"a"`. -/
def exC5fd : Snapshot := fun f => if f == "x" then some (Value.str "a") else none

/-- A rule map hiding field `hidden` behind `dep = "yes"`. -/
def exCfHidden : GenericConditionalFields := fun f =>
  if f == "hidden" then
    some (RuleEntry.single
      { dependsOn := "dep", «when» := Trigger.one "yes",
        type := RuleType.«show», matchMode := none })
  else none

/-- A configuration with one required field that `exCfHidden` hides. -/
def exCfgHidden : GenericFormConfiguration :=
  ⟨[("hidden",
     { id := "hidden", label := "Hidden", required := some true, typeComponent := none })]⟩

/-- A three-field configuration exercising all three result buckets. -/
def exCfg9 : GenericFormConfiguration :=
  ⟨[("hidden",
     { id := "hidden", label := "Hidden", required := some true, typeComponent := none }),
    ("note", { id := "note", label := "Note", required := none, typeComponent := none }),
    ("name", { id := "name", label := "Name", required := some true, typeComponent := none })]⟩

/-- A snapshot where `name` is present but empty. -/
def exFd9 : Snapshot := fun f => if f == "name" then some (Value.str "") else none

/-- A transito snapshot requesting a virtual hearing with all other fields empty. -/
def exTd : TransitoDataType :=
  { userName := "", typeId := "", idNumber := "", notificationAddress := ""
    notificationCity := "", notificationEmail := "", phoneNumber := ""
    procedureType := "audiencia-virtual", actNumber := "", actDate := ""
    infractionCode := "", infractionDescription := "", vehicleBrand := ""
    vehicleModel := "", vehiclePlates := "", isOwner := ""
    mobilitySecretaryName := "", petitionDate := "", virtualAudienceReason := "" }

/-- A transito field-config table carrying only `virtualAudienceReason`. -/
def exTCfgs : List (String × TransitoFieldConfig) :=
  [("virtualAudienceReason", { required := some true, label := "Razón" })]

/-! ### Facts about the JS record model -/

theorem recordSet_map_fst_mem (m : List (String × String)) (k v a : String) :
    a ∈ (recordSet m k v).map Prod.fst ↔ a ∈ m.map Prod.fst ∨ a = k := by
  induction m with
  | nil => simp [recordSet]
  | cons p rest ih =>
    by_cases hpk : p.1 = k
    · have hb : (p.1 == k) = true := by simp [hpk]
      rw [show recordSet (p :: rest) k v = (k, v) :: rest from by simp [recordSet, hb]]
      simp only [List.map_cons, List.mem_cons, hpk]
      tauto
    · have hb : (p.1 == k) = false := by simp [hpk]
      rw [show recordSet (p :: rest) k v = p :: recordSet rest k v from by
        simp [recordSet, hb]]
      simp only [List.map_cons, List.mem_cons, ih]
      tauto

theorem recordSet_append_of_not_mem (m : List (String × String)) (k v : String)
    (h : k ∉ m.map Prod.fst) : recordSet m k v = m ++ [(k, v)] := by
  induction m with
  | nil => simp [recordSet]
  | cons p rest ih =>
    simp only [List.map_cons, List.mem_cons] at h
    push_neg at h
    have hb : (p.1 == k) = false := by
      simp only [beq_eq_false_iff_ne]
      exact fun he => h.1 he.symm
    simp [recordSet, hb, ih h.2]

theorem recordSet_map_fst_of_mem (m : List (String × String)) (k v : String)
    (h : k ∈ m.map Prod.fst) :
    (recordSet m k v).map Prod.fst = m.map Prod.fst := by
  induction m with
  | nil => simp at h
  | cons p rest ih =>
    by_cases hpk : p.1 = k
    · have hb : (p.1 == k) = true := by simp [hpk]
      simp [recordSet, hb, hpk]
    · have hb : (p.1 == k) = false := by simp [hpk]
      have h' : k ∈ rest.map Prod.fst := by
        simp only [List.map_cons, List.mem_cons] at h
        rcases h with h | h
        · exact absurd h.symm hpk
        · exact h
      simp [recordSet, hb, ih h']

theorem recordSet_nodup (m : List (String × String)) (k v : String)
    (h : (m.map Prod.fst).Nodup) :
    ((recordSet m k v).map Prod.fst).Nodup := by
  by_cases hk : k ∈ m.map Prod.fst
  · rw [recordSet_map_fst_of_mem m k v hk]
    exact h
  · rw [recordSet_append_of_not_mem m k v hk]
    simp [List.nodup_append, h, hk]

theorem lookupRecord_recordSet_self (m : List (String × String)) (k v : String) :
    lookupRecord (recordSet m k v) k = some v := by
  induction m with
  | nil => simp [recordSet, lookupRecord]
  | cons p rest ih =>
    by_cases hpk : p.1 = k
    · have hb : (p.1 == k) = true := by simp [hpk]
      simp [recordSet, hb, lookupRecord]
    · have hb : (p.1 == k) = false := by simp [hpk]
      simpa [recordSet, hb, lookupRecord, List.find?_cons, hb] using ih

theorem lookupRecord_eq_none_iff (m : List (String × String)) (k : String) :
    lookupRecord m k = none ↔ k ∉ m.map Prod.fst := by
  unfold lookupRecord
  rw [Option.map_eq_none', List.find?_eq_none]
  simp only [List.mem_map, beq_iff_eq]
  constructor
  · rintro h ⟨p, hp, rfl⟩
    exact h p hp rfl
  · intro h p hp hpk
    exact h ⟨p, hp, hpk⟩

/-! ### Characterization of the generic validation pass -/

theorem genStep_errors_mem (formData : Snapshot) (cfg : GenericFormConfiguration)
    (cf : GenericConditionalFields) (acc : GenAcc) (k a : String) :
    a ∈ (genStep formData cfg cf acc k).errors.map Prod.fst ↔
      a ∈ acc.errors.map Prod.fst ∨
        (a = k ∧ (isGenericFieldRequired k formData cf cfg &&
          shouldShowGenericField k formData cf && valueFailsCheck (formData k)) = true) := by
  simp only [genStep]
  cases hreq : isGenericFieldRequired k formData cf cfg <;>
    cases hrend : shouldShowGenericField k formData cf <;>
      cases hfail : valueFailsCheck (formData k) <;>
        simp [recordSet_map_fst_mem, -List.mem_map]

theorem genStep_validated_mem (formData : Snapshot) (cfg : GenericFormConfiguration)
    (cf : GenericConditionalFields) (acc : GenAcc) (k a : String) :
    a ∈ (genStep formData cfg cf acc k).validatedFields ↔
      a ∈ acc.validatedFields ∨
        (a = k ∧ shouldShowGenericField k formData cf = true ∧
          (isGenericFieldRequired k formData cf cfg && valueFailsCheck (formData k)) = false) := by
  simp only [genStep]
  cases hreq : isGenericFieldRequired k formData cf cfg <;>
    cases hrend : shouldShowGenericField k formData cf <;>
      cases hfail : valueFailsCheck (formData k) <;>
        simp

theorem genStep_skipped_mem (formData : Snapshot) (cfg : GenericFormConfiguration)
    (cf : GenericConditionalFields) (acc : GenAcc) (k a : String) :
    a ∈ (genStep formData cfg cf acc k).skippedFields ↔
      a ∈ acc.skippedFields ∨
        (a = k ∧ shouldShowGenericField k formData cf = false) := by
  simp only [genStep]
  cases hreq : isGenericFieldRequired k formData cf cfg <;>
    cases hrend : shouldShowGenericField k formData cf <;>
      cases hfail : valueFailsCheck (formData k) <;>
        simp

theorem genFold_errors_mem (formData : Snapshot) (cfg : GenericFormConfiguration)
    (cf : GenericConditionalFields) (ks : List String) :
    ∀ (acc : GenAcc) (a : String),
      a ∈ ((ks.foldl (genStep formData cfg cf) acc).errors.map Prod.fst) ↔
        a ∈ acc.errors.map Prod.fst ∨
          (a ∈ ks ∧ (isGenericFieldRequired a formData cf cfg &&
            shouldShowGenericField a formData cf && valueFailsCheck (formData a)) = true) := by
  induction ks with
  | nil => intro acc a; simp
  | cons k ks ih =>
    intro acc a
    rw [List.foldl_cons, ih, genStep_errors_mem]
    constructor
    · rintro ((h | ⟨rfl, hc⟩) | ⟨hks, hc⟩)
      · exact Or.inl h
      · exact Or.inr ⟨List.mem_cons_self _ _, hc⟩
      · exact Or.inr ⟨List.mem_cons_of_mem _ hks, hc⟩
    · rintro (h | ⟨hmem, hc⟩)
      · exact Or.inl (Or.inl h)
      · rcases List.mem_cons.mp hmem with rfl | hks
        · exact Or.inl (Or.inr ⟨rfl, hc⟩)
        · exact Or.inr ⟨hks, hc⟩

theorem genFold_validated_mem (formData : Snapshot) (cfg : GenericFormConfiguration)
    (cf : GenericConditionalFields) (ks : List String) :
    ∀ (acc : GenAcc) (a : String),
      a ∈ (ks.foldl (genStep formData cfg cf) acc).validatedFields ↔
        a ∈ acc.validatedFields ∨
          (a ∈ ks ∧ shouldShowGenericField a formData cf = true ∧
            (isGenericFieldRequired a formData cf cfg && valueFailsCheck (formData a)) = false) := by
  induction ks with
  | nil => intro acc a; simp
  | cons k ks ih =>
    intro acc a
    rw [List.foldl_cons, ih, genStep_validated_mem]
    constructor
    · rintro ((h | ⟨rfl, hc⟩) | ⟨hks, hc⟩)
      · exact Or.inl h
      · exact Or.inr ⟨List.mem_cons_self _ _, hc⟩
      · exact Or.inr ⟨List.mem_cons_of_mem _ hks, hc⟩
    · rintro (h | ⟨hmem, hc⟩)
      · exact Or.inl (Or.inl h)
      · rcases List.mem_cons.mp hmem with rfl | hks
        · exact Or.inl (Or.inr ⟨rfl, hc⟩)
        · exact Or.inr ⟨hks, hc⟩

theorem genFold_skipped_mem (formData : Snapshot) (cfg : GenericFormConfiguration)
    (cf : GenericConditionalFields) (ks : List String) :
    ∀ (acc : GenAcc) (a : String),
      a ∈ (ks.foldl (genStep formData cfg cf) acc).skippedFields ↔
        a ∈ acc.skippedFields ∨
          (a ∈ ks ∧ shouldShowGenericField a formData cf = false) := by
  induction ks with
  | nil => intro acc a; simp
  | cons k ks ih =>
    intro acc a
    rw [List.foldl_cons, ih, genStep_skipped_mem]
    constructor
    · rintro ((h | ⟨rfl, hc⟩) | ⟨hks, hc⟩)
      · exact Or.inl h
      · exact Or.inr ⟨List.mem_cons_self _ _, hc⟩
      · exact Or.inr ⟨List.mem_cons_of_mem _ hks, hc⟩
    · rintro (h | ⟨hmem, hc⟩)
      · exact Or.inl (Or.inl h)
      · rcases List.mem_cons.mp hmem with rfl | hks
        · exact Or.inl (Or.inr ⟨rfl, hc⟩)
        · exact Or.inr ⟨hks, hc⟩

theorem validate_errors_keys_mem (formData : Snapshot)
    (cfg : GenericFormConfiguration) (cf : GenericConditionalFields) (a : String) :
    a ∈ (validateGenericFieldsBasedOnRenderingAndRequirement formData cfg cf).errors.map Prod.fst ↔
      a ∈ cfg.keys ∧ (isGenericFieldRequired a formData cf cfg &&
        shouldShowGenericField a formData cf && valueFailsCheck (formData a)) = true := by
  have h := genFold_errors_mem formData cfg cf cfg.keys ⟨[], [], []⟩ a
  simpa [validateGenericFieldsBasedOnRenderingAndRequirement] using h

theorem validate_validated_mem (formData : Snapshot)
    (cfg : GenericFormConfiguration) (cf : GenericConditionalFields) (a : String) :
    a ∈ (validateGenericFieldsBasedOnRenderingAndRequirement formData cfg cf).validatedFields ↔
      a ∈ cfg.keys ∧ shouldShowGenericField a formData cf = true ∧
        (isGenericFieldRequired a formData cf cfg && valueFailsCheck (formData a)) = false := by
  have h := genFold_validated_mem formData cfg cf cfg.keys ⟨[], [], []⟩ a
  simpa [validateGenericFieldsBasedOnRenderingAndRequirement] using h

theorem validate_skipped_mem (formData : Snapshot)
    (cfg : GenericFormConfiguration) (cf : GenericConditionalFields) (a : String) :
    a ∈ (validateGenericFieldsBasedOnRenderingAndRequirement formData cfg cf).skippedFields ↔
      a ∈ cfg.keys ∧ shouldShowGenericField a formData cf = false := by
  have h := genFold_skipped_mem formData cfg cf cfg.keys ⟨[], [], []⟩ a
  simpa [validateGenericFieldsBasedOnRenderingAndRequirement] using h

/-! ### The validation pass partitions the configuration keys -/

theorem perm_append_singleton_left (E V S : List String) (k : String) :
    ((E ++ [k]) ++ V ++ S).Perm ((E ++ V ++ S) ++ [k]) := by
  rw [show (E ++ [k]) ++ V ++ S = E ++ ([k] ++ (V ++ S)) from by simp,
      show (E ++ V ++ S) ++ [k] = E ++ ((V ++ S) ++ [k]) from by simp]
  exact List.Perm.append_left E List.perm_append_comm

theorem perm_append_singleton_mid (E V S : List String) (k : String) :
    (E ++ (V ++ [k]) ++ S).Perm ((E ++ V ++ S) ++ [k]) := by
  rw [show E ++ (V ++ [k]) ++ S = E ++ V ++ ([k] ++ S) from by simp,
      show (E ++ V ++ S) ++ [k] = E ++ V ++ (S ++ [k]) from by simp]
  exact List.Perm.append_left _ List.perm_append_comm

theorem perm_append_singleton_right (E V S : List String) (k : String) :
    (E ++ V ++ (S ++ [k])).Perm ((E ++ V ++ S) ++ [k]) := by
  have h : E ++ V ++ (S ++ [k]) = (E ++ V ++ S) ++ [k] := by simp
  exact h ▸ List.Perm.refl _

theorem genStep_allKeys_perm (formData : Snapshot) (cfg : GenericFormConfiguration)
    (cf : GenericConditionalFields) (acc : GenAcc) (k : String)
    (h : k ∉ acc.allKeys) :
    (genStep formData cfg cf acc k).allKeys.Perm (acc.allKeys ++ [k]) := by
  obtain ⟨E, V, S⟩ := acc
  have hek : k ∉ E.map Prod.fst := by
    intro hm
    exact h (by simp [GenAcc.allKeys, hm])
  simp only [genStep]
  split
  · split
    · simp only [GenAcc.allKeys]
      rw [recordSet_append_of_not_mem _ _ _ hek]
      simp only [List.map_append, List.map_cons, List.map_nil]
      exact perm_append_singleton_left _ _ _ _
    · simp only [GenAcc.allKeys]
      exact perm_append_singleton_mid _ _ _ _
  · split
    · simp only [GenAcc.allKeys]
      exact perm_append_singleton_right _ _ _ _
    · simp only [GenAcc.allKeys]
      exact perm_append_singleton_mid _ _ _ _

theorem genFold_allKeys_perm (formData : Snapshot) (cfg : GenericFormConfiguration)
    (cf : GenericConditionalFields) (ks : List String) :
    ∀ (acc : GenAcc), (acc.allKeys ++ ks).Nodup →
      ((ks.foldl (genStep formData cfg cf) acc).allKeys).Perm (acc.allKeys ++ ks) := by
  induction ks with
  | nil => intro acc _; simp
  | cons k ks ih =>
    intro acc h
    rw [List.foldl_cons]
    have hk : k ∉ acc.allKeys := by
      have hd := (List.nodup_append.mp h).2.2
      intro hmem
      exact hd hmem (List.mem_cons_self k ks)
    have hstep := genStep_allKeys_perm formData cfg cf acc k hk
    have heq : (acc.allKeys ++ [k]) ++ ks = acc.allKeys ++ k :: ks := by simp
    have hperm2 : ((genStep formData cfg cf acc k).allKeys ++ ks).Perm
        (acc.allKeys ++ k :: ks) := by
      have := hstep.append_right ks
      rwa [heq] at this
    have hnd2 : ((genStep formData cfg cf acc k).allKeys ++ ks).Nodup :=
      hperm2.symm.nodup h
    exact (ih _ hnd2).trans hperm2

/-! ### Facts about the transito validation pass -/

theorem transitoStep_errors_nodup (formData : TransitoDataType)
    (fieldConfigs : List (String × TransitoFieldConfig)) (acc : GenAcc) (k : String)
    (h : (acc.errors.map Prod.fst).Nodup) :
    ((transitoStep formData fieldConfigs acc k).errors.map Prod.fst).Nodup := by
  simp only [transitoStep]
  split
  · simpa using h
  · split
    · split
      · exact recordSet_nodup _ _ _ h
      · simpa using h
    · split
      · simpa using h
      · simpa using h

theorem transitoFold_errors_nodup (formData : TransitoDataType)
    (fieldConfigs : List (String × TransitoFieldConfig)) (ks : List String) :
    ∀ (acc : GenAcc), (acc.errors.map Prod.fst).Nodup →
      (((ks.foldl (transitoStep formData fieldConfigs) acc).errors.map Prod.fst)).Nodup := by
  induction ks with
  | nil => intro acc h; simpa using h
  | cons k ks ih =>
    intro acc h
    rw [List.foldl_cons]
    exact ih _ (transitoStep_errors_nodup formData fieldConfigs acc k h)

theorem overrideFold_errors_nodup (formData : TransitoDataType)
    (l : List (String × String)) :
    ∀ (e : List (String × String)), (e.map Prod.fst).Nodup →
      ((l.foldl
        (fun e p => if shouldShowFieldByName p.1 formData then recordSet e p.1 p.2 else e)
        e).map Prod.fst).Nodup := by
  induction l with
  | nil => intro e h; simpa using h
  | cons p l ih =>
    intro e h
    rw [List.foldl_cons]
    by_cases hs : shouldShowFieldByName p.1 formData
    · simp only [hs, if_true]
      exact ih _ (recordSet_nodup _ _ _ h)
    · simp only [hs, if_false]
      exact ih _ h

theorem cond_errors_shape (formData : TransitoDataType) :
    (validateConditionalFields formData).2 = [] ∨
      ∃ m, (validateConditionalFields formData).2 = [("virtualAudienceReason", m)] := by
  simp only [validateConditionalFields]
  split
  · split
    · exact Or.inr ⟨_, rfl⟩
    · split
      · exact Or.inr ⟨_, rfl⟩
      · exact Or.inl rfl
  · exact Or.inl rfl

/-! ### Claim theorems -/

/-- Claim C10: a rule whose trigger is the empty list evaluates asymmetrically by
match mode: `containsAll` is a vacuous conjunction and returns true, while
`contains` (empty disjunction) and `exact` (membership in an empty list) return
false, for every snapshot. -/
theorem empty_trigger_mode_asymmetry (dep : String) (ty : RuleType)
    (formData : Snapshot) :
    evaluateGenericCondition
      { dependsOn := dep, «when» := Trigger.many [], type := ty,
        matchMode := some MatchMode.containsAll } formData = true ∧
    evaluateGenericCondition
      { dependsOn := dep, «when» := Trigger.many [], type := ty,
        matchMode := some MatchMode.contains } formData = false ∧
    evaluateGenericCondition
      { dependsOn := dep, «when» := Trigger.many [], type := ty,
        matchMode := some MatchMode.exact } formData = false := by
  refine ⟨?_, ?_, ?_⟩ <;> simp [evaluateGenericCondition]

/-- Claim C5: with `contains` a list trigger is disjunctive (the lower-cased field
value must contain at least one lower-cased candidate as a substring) and with
`containsAll` it is conjunctive (it must contain every candidate); in particular
for trigger `["a","b"]` and field value `"a"`, `contains` holds and
`containsAll` does not. -/
theorem contains_any_containsAll_all :
    (∀ (dep : String) (ty : RuleType) (formData : Snapshot) (ws : List String),
      (evaluateGenericCondition
          { dependsOn := dep, «when» := Trigger.many ws, type := ty,
            matchMode := some MatchMode.contains } formData = true ↔
        ∃ w ∈ ws,
          (strToLower w).data <:+: (strToLower (coerceToString (formData dep))).data) ∧
      (evaluateGenericCondition
          { dependsOn := dep, «when» := Trigger.many ws, type := ty,
            matchMode := some MatchMode.containsAll } formData = true ↔
        ∀ w ∈ ws,
          (strToLower w).data <:+: (strToLower (coerceToString (formData dep))).data)) ∧
    evaluateGenericCondition
      { dependsOn := "x", «when» := Trigger.many ["a", "b"], type := RuleType.«show»,
        matchMode := some MatchMode.contains } exC5fd = true ∧
    evaluateGenericCondition
      { dependsOn := "x", «when» := Trigger.many ["a", "b"], type := RuleType.«show»,
        matchMode := some MatchMode.containsAll } exC5fd = false := by
  refine ⟨fun dep ty formData ws => ⟨?_, ?_⟩, by decide, by decide⟩
  · simp [evaluateGenericCondition, strIncludes, List.any_eq_true]
  · simp [evaluateGenericCondition, strIncludes, List.all_eq_true]

/-- Claim C6: `shouldShowGenericField` returns true exactly when every attached
rule of kind `show` evaluates true; with no rules at all, or no `show` rules,
this is vacuous and the field is shown for every snapshot, and one false `show`
rule hides the field regardless of the others. -/
theorem shouldShow_iff_every_show_rule (fieldName : String) (formData : Snapshot)
    (conditionalFields : GenericConditionalFields) :
    shouldShowGenericField fieldName formData conditionalFields = true ↔
      ∀ r ∈ rulesOf conditionalFields fieldName,
        r.type = RuleType.«show» → evaluateGenericCondition r formData = true := by
  unfold shouldShowGenericField rulesOf
  cases h : conditionalFields fieldName with
  | none => simp
  | some e =>
    by_cases hemp : e.toRuleArray.filter (fun r => r.type == RuleType.«show») = []
    · have hall : ∀ r ∈ e.toRuleArray, ¬(r.type = RuleType.«show») := by
        intro r hr
        have := List.filter_eq_nil_iff.mp hemp r hr
        simpa using this
      simp only [hemp]
      simp only [List.isEmpty_nil, if_true, true_iff]
      intro r hr hty
      exact absurd hty (hall r hr)
    · have hne : (e.toRuleArray.filter (fun r => r.type == RuleType.«show»)).isEmpty = false := by
        simpa [List.isEmpty_iff] using hemp
      simp only [hne, Bool.false_eq_true, if_false, List.all_eq_true, List.mem_filter]
      constructor
      · intro hx r hr hty
        exact hx r ⟨hr, by simp [hty]⟩
      · rintro hx r ⟨hr, hty⟩
        exact hx r hr (by simpa using hty)

/-- Claim C7: a field whose descriptor has base `required = true` is required for
every snapshot and rule map (`require` rules can only add requiredness), and
with no `require` rules the result equals the base flag exactly. -/
theorem isRequired_base_monotone (fieldName : String) (formData : Snapshot)
    (conditionalFields : GenericConditionalFields)
    (formConfiguration : GenericFormConfiguration) :
    (baseRequiredFlag formConfiguration fieldName = true →
      isGenericFieldRequired fieldName formData conditionalFields formConfiguration = true) ∧
    ((rulesOf conditionalFields fieldName).filter (fun r => r.type == RuleType.require) = [] →
      isGenericFieldRequired fieldName formData conditionalFields formConfiguration =
        baseRequiredFlag formConfiguration fieldName) := by
  unfold isGenericFieldRequired rulesOf baseRequiredFlag
  cases h : conditionalFields fieldName with
  | none => exact ⟨fun hb => hb, fun _ => rfl⟩
  | some e =>
    constructor
    · intro hb
      split
      · exact hb
      · simp [hb]
    · intro hfil
      simp [hfil]

/-- Witness for C7 at a concrete input: the `choices` field has base
`required = true` and no rules, and `isGenericFieldRequired` returns true. -/
theorem isRequired_base_monotone_witness :
    baseRequiredFlag exCfgSeq "choices" = true ∧
    isGenericFieldRequired "choices" exFdNone exNoRules exCfgSeq = true :=
  ⟨by decide, (isRequired_base_monotone "choices" exFdNone exNoRules exCfgSeq).1 (by decide)⟩

/-- Claim C1 (counterexample): a visible and required field whose snapshot value
is the empty sequence produces NO error — JS arrays are truthy, so the value
check never fails for sequences; the field even lands in `validatedFields`. -/
theorem emptySequence_noError_counterexample :
    shouldShowGenericField "choices" exFdSeqEmpty exNoRules = true ∧
    isGenericFieldRequired "choices" exFdSeqEmpty exNoRules exCfgSeq = true ∧
    exFdSeqEmpty "choices" = some (Value.seq []) ∧
    lookupRecord (validateGenericFieldsBasedOnRenderingAndRequirement
      exFdSeqEmpty exCfgSeq exNoRules).errors "choices" = none ∧
    "choices" ∈ (validateGenericFieldsBasedOnRenderingAndRequirement
      exFdSeqEmpty exCfgSeq exNoRules).validatedFields := by
  refine ⟨by decide, by decide, by decide, by decide, by decide⟩

/-- Claim C1 (amended): a visible and required field whose snapshot value is a
sequence — empty or not — never gets an error recorded: the value check only
fails on absent values and on strings that trim to empty. -/
theorem seq_value_never_errors (formData : Snapshot)
    (cfg : GenericFormConfiguration) (cf : GenericConditionalFields)
    (fieldName : String) (xs : List String)
    (hval : formData fieldName = some (Value.seq xs))
    (_hshown : shouldShowGenericField fieldName formData cf = true)
    (_hreq : isGenericFieldRequired fieldName formData cf cfg = true) :
    lookupRecord (validateGenericFieldsBasedOnRenderingAndRequirement
      formData cfg cf).errors fieldName = none := by
  rw [lookupRecord_eq_none_iff]
  intro hmem
  rw [validate_errors_keys_mem] at hmem
  have hfail : valueFailsCheck (formData fieldName) = false := by
    rw [hval]
    rfl
  rw [hfail] at hmem
  simp at hmem

/-- Witness for the amended C1 at a concrete input: the `choices` field is
visible, required, holds the empty sequence, and gets no error. -/
theorem seq_value_never_errors_witness :
    exFdSeqEmpty "choices" = some (Value.seq []) ∧
    shouldShowGenericField "choices" exFdSeqEmpty exNoRules = true ∧
    isGenericFieldRequired "choices" exFdSeqEmpty exNoRules exCfgSeq = true ∧
    lookupRecord (validateGenericFieldsBasedOnRenderingAndRequirement
      exFdSeqEmpty exCfgSeq exNoRules).errors "choices" = none :=
  ⟨by decide, by decide, by decide,
    seq_value_never_errors exFdSeqEmpty exCfgSeq exNoRules "choices" []
      (by decide) (by decide) (by decide)⟩

/-- Claim C4 (counterexample): a field that is visible but NOT required still
appears in `validatedFields` — the source pushes rendered non-required fields
there too. -/
theorem visible_notRequired_validated_counterexample :
    shouldShowGenericField "note" exFdNone exNoRules = true ∧
    isGenericFieldRequired "note" exFdNone exNoRules exCfgOpt = false ∧
    "note" ∈ (validateGenericFieldsBasedOnRenderingAndRequirement
      exFdNone exCfgOpt exNoRules).validatedFields := by
  refine ⟨by decide, by decide, by decide⟩

/-- Claim C4 (amended): `validatedFields` contains exactly the configuration
ids that are visible and not failing — the visible+required ids whose values
pass the check, plus every visible non-required id. -/
theorem validatedFields_exact_characterization (formData : Snapshot)
    (cfg : GenericFormConfiguration) (cf : GenericConditionalFields) (a : String) :
    a ∈ (validateGenericFieldsBasedOnRenderingAndRequirement
        formData cfg cf).validatedFields ↔
      a ∈ cfg.keys ∧ shouldShowGenericField a formData cf = true ∧
        (isGenericFieldRequired a formData cf cfg && valueFailsCheck (formData a)) = false :=
  validate_validated_mem formData cfg cf a

/-- Claim C8: a field that is not visible never gets an error — even when it is
required — and is placed in `skippedFields` instead. -/
theorem hidden_field_never_errors_and_skipped (formData : Snapshot)
    (cfg : GenericFormConfiguration) (cf : GenericConditionalFields)
    (fieldName : String)
    (hmem : fieldName ∈ cfg.keys)
    (hhidden : shouldShowGenericField fieldName formData cf = false) :
    lookupRecord (validateGenericFieldsBasedOnRenderingAndRequirement
        formData cfg cf).errors fieldName = none ∧
      fieldName ∈ (validateGenericFieldsBasedOnRenderingAndRequirement
        formData cfg cf).skippedFields := by
  constructor
  · rw [lookupRecord_eq_none_iff]
    intro hk
    rw [validate_errors_keys_mem] at hk
    rw [hhidden] at hk
    simp at hk
  · rw [validate_skipped_mem]
    exact ⟨hmem, hhidden⟩

/-- Witness for C8 at a concrete input: `hidden` is required but hidden by its
`show` rule, gets no error and lands in `skippedFields`. -/
theorem hidden_field_never_errors_and_skipped_witness :
    "hidden" ∈ exCfgHidden.keys ∧
    shouldShowGenericField "hidden" exFdNone exCfHidden = false ∧
    (lookupRecord (validateGenericFieldsBasedOnRenderingAndRequirement
        exFdNone exCfgHidden exCfHidden).errors "hidden" = none ∧
      "hidden" ∈ (validateGenericFieldsBasedOnRenderingAndRequirement
        exFdNone exCfgHidden exCfHidden).skippedFields) :=
  ⟨by decide, by decide,
    hidden_field_never_errors_and_skipped exFdNone exCfgHidden exCfHidden "hidden"
      (by decide) (by decide)⟩

/-- Claim C9: with distinct configuration keys, the error keys, validated ids
and skipped ids of a validation pass form a partition of the configuration's
field ids: their concatenation is a permutation of the key list (so the three
parts are pairwise disjoint, duplicate-free, and cover exactly the keys — ids
outside the configuration never appear). -/
theorem validation_partitions_configuration (formData : Snapshot)
    (cfg : GenericFormConfiguration) (cf : GenericConditionalFields)
    (hnd : cfg.keys.Nodup) :
    ((validateGenericFieldsBasedOnRenderingAndRequirement
        formData cfg cf).errors.map Prod.fst ++
      (validateGenericFieldsBasedOnRenderingAndRequirement
        formData cfg cf).validatedFields ++
      (validateGenericFieldsBasedOnRenderingAndRequirement
        formData cfg cf).skippedFields).Perm cfg.keys ∧
    ((validateGenericFieldsBasedOnRenderingAndRequirement
        formData cfg cf).errors.map Prod.fst ++
      (validateGenericFieldsBasedOnRenderingAndRequirement
        formData cfg cf).validatedFields ++
      (validateGenericFieldsBasedOnRenderingAndRequirement
        formData cfg cf).skippedFields).Nodup := by
  have hfold := genFold_allKeys_perm formData cfg cf cfg.keys ⟨[], [], []⟩
    (by simpa [GenAcc.allKeys] using hnd)
  have hperm : ((validateGenericFieldsBasedOnRenderingAndRequirement
        formData cfg cf).errors.map Prod.fst ++
      (validateGenericFieldsBasedOnRenderingAndRequirement
        formData cfg cf).validatedFields ++
      (validateGenericFieldsBasedOnRenderingAndRequirement
        formData cfg cf).skippedFields).Perm cfg.keys := by
    simpa [GenAcc.allKeys, validateGenericFieldsBasedOnRenderingAndRequirement]
      using hfold
  exact ⟨hperm, hperm.symm.nodup hnd⟩

/-- Witness for C9 at a concrete three-field input where all three buckets are
non-empty. -/
theorem validation_partitions_configuration_witness :
    exCfg9.keys.Nodup ∧
    (((validateGenericFieldsBasedOnRenderingAndRequirement
        exFd9 exCfg9 exCfHidden).errors.map Prod.fst ++
      (validateGenericFieldsBasedOnRenderingAndRequirement
        exFd9 exCfg9 exCfHidden).validatedFields ++
      (validateGenericFieldsBasedOnRenderingAndRequirement
        exFd9 exCfg9 exCfHidden).skippedFields).Perm exCfg9.keys ∧
    ((validateGenericFieldsBasedOnRenderingAndRequirement
        exFd9 exCfg9 exCfHidden).errors.map Prod.fst ++
      (validateGenericFieldsBasedOnRenderingAndRequirement
        exFd9 exCfg9 exCfHidden).validatedFields ++
      (validateGenericFieldsBasedOnRenderingAndRequirement
        exFd9 exCfg9 exCfHidden).skippedFields).Nodup) :=
  ⟨by decide,
    validation_partitions_configuration exFd9 exCfg9 exCfHidden (by decide)⟩

/-- Claim C2: the transito rule table hard-codes exactly the scenario rule —
`virtualAudienceReason` has no base requiredness and one `show` rule depending
on `procedureType` with trigger `"audiencia-virtual"` and exact matching; for
every snapshot with `procedureType = "audiencia-virtual"` the field is both
shown and required (a `show` rule implies requiredness-when-shown). -/
theorem transito_show_rule_implies_required (formData : TransitoDataType)
    (h : formData.procedureType = "audiencia-virtual") :
    shouldShowField "virtualAudienceReason" formData = true ∧
      isFieldRequired "virtualAudienceReason" formData = true := by
  have h1 : shouldShowField "virtualAudienceReason" formData =
      (formData.procedureType == "audiencia-virtual") := rfl
  have h2 : isFieldRequired "virtualAudienceReason" formData =
      (formData.procedureType == "audiencia-virtual") := rfl
  rw [h1, h2, h]
  exact ⟨by decide, by decide⟩

/-- Witness for C2 at a concrete snapshot requesting a virtual hearing. -/
theorem transito_show_rule_implies_required_witness :
    exTd.procedureType = "audiencia-virtual" ∧
      (shouldShowField "virtualAudienceReason" exTd = true ∧
        isFieldRequired "virtualAudienceReason" exTd = true) :=
  ⟨rfl, transito_show_rule_implies_required exTd rfl⟩

/-- Claim C3 (counterexample): with an empty `virtualAudienceReason` under
`procedureType = "audiencia-virtual"`, two checks fail for the field. The
first failing check is the main-loop emptiness check, whose message is
`"Razón es requerido."`; the pass instead records the message of the LATER
conditional-validation check, which overwrites it. -/
theorem transito_lastCheck_wins_counterexample :
    lookupRecord (transitoMainAcc exTd exTCfgs).errors "virtualAudienceReason" =
      some "Razón es requerido." ∧
    lookupRecord (validateFieldsBasedOnRenderingAndRequirement
        exTd exTCfgs).errors "virtualAudienceReason" =
      some "La razón para no asistir presencialmente es requerida para solicitudes de audiencia virtual." ∧
    ("La razón para no asistir presencialmente es requerida para solicitudes de audiencia virtual." ≠
      ("Razón es requerido." : String)) := by
  refine ⟨by decide, by decide, by decide⟩

/-- Claim C3 (amended): the errors mapping holds at most one message per field
id (its key list is duplicate-free); when several checks fail for one field,
the conditional-validation phase's message wins — it overwrites whatever the
main loop recorded for a shown field. -/
theorem transito_errors_unique_conditional_overrides (formData : TransitoDataType)
    (fieldConfigs : List (String × TransitoFieldConfig)) :
    ((validateFieldsBasedOnRenderingAndRequirement
        formData fieldConfigs).errors.map Prod.fst).Nodup ∧
    (∀ f m, (f, m) ∈ (validateConditionalFields formData).2 →
      shouldShowFieldByName f formData = true →
      lookupRecord (validateFieldsBasedOnRenderingAndRequirement
        formData fieldConfigs).errors f = some m) := by
  have hmain : ((transitoMainAcc formData fieldConfigs).errors.map Prod.fst).Nodup :=
    transitoFold_errors_nodup formData fieldConfigs transitoKeys ⟨[], [], []⟩ (by simp)
  constructor
  · simp only [validateFieldsBasedOnRenderingAndRequirement]
    exact overrideFold_errors_nodup formData _ _ hmain
  · intro f m hm hshown
    simp only [validateFieldsBasedOnRenderingAndRequirement]
    rcases cond_errors_shape formData with hnil | ⟨m', heq⟩
    · rw [hnil] at hm
      simp at hm
    · rw [heq] at hm
      simp only [List.mem_singleton, Prod.mk.injEq] at hm
      obtain ⟨rfl, rfl⟩ := hm
      rw [heq]
      simp only [List.foldl_cons, List.foldl_nil]
      rw [if_pos hshown]
      exact lookupRecord_recordSet_self _ _ _

/-- Witness for the amended C3 at a concrete input: the conditional message is
the one recorded for the shown field. -/
theorem transito_errors_unique_conditional_overrides_witness :
    (("virtualAudienceReason",
        "La razón para no asistir presencialmente es requerida para solicitudes de audiencia virtual.") ∈
      (validateConditionalFields exTd).2) ∧
    shouldShowFieldByName "virtualAudienceReason" exTd = true ∧
    lookupRecord (validateFieldsBasedOnRenderingAndRequirement
        exTd exTCfgs).errors "virtualAudienceReason" =
      some "La razón para no asistir presencialmente es requerida para solicitudes de audiencia virtual." :=
  ⟨by decide, by decide,
    (transito_errors_unique_conditional_overrides exTd exTCfgs).2
      "virtualAudienceReason" _ (by decide) (by decide)⟩

end ShopifyForm
